import Mathlib

/-!
Verification of the sequential multi-agent demo scripts: an AutoGen-style
conference-planning pipeline (`src/autogen/autogen_conference_demo.py`) and a
CrewAI travel-planning demo (`src/crewai/crewai_demo.py`).  The Python code is
shallowly embedded: prompt construction becomes string concatenation, the
chat-completion collaborator becomes a function returning `Except`, and the
observable actions of a run (generation calls, stored outputs, file writes)
are recorded in an explicit event trace.
-/

/-- Substring containment: `containsStr big small` holds when `small` occurs
verbatim (contiguously) inside `big`. -/
def containsStr (big small : String) : Prop :=
  ∃ a b : List Char, a ++ small.data ++ b = big.data

namespace AutogenDemo

/-- Run parameters of `ConferencePlanningWorkflow.__init__`: the conference
name, type and duration supplied at construction, plus the model identifier
read from `Config.OPENAI_MODEL`. -/
structure Params where
  conference_name : String
  conference_type : String
  duration : String
  model : String
deriving DecidableEq, Repr

/-- The text-generation collaborator: `self.client.chat.completions.create`
with the fixed configuration (model, temperature, max tokens) abstracted
away; it receives the system prompt and the user message and either returns
the generated text or signals an error. -/
def Gen : Type := String → String → Except String String

/-- Observable actions of a run: issuing a generation call for a stage,
storing a stage output in `self.outputs`, and writing a file. -/
inductive Event where
  | genCall (stage sys user : String)
  | store (stage out : String)
  | fileWrite (fname content : String)
deriving DecidableEq, Repr

/-- System prompt of `phase_theme` (lines 79-85). -/
def sys_theme (w : Params) : String :=
  "You are a conference theme strategist specializing in " ++ w.conference_type
  ++ " events.\nDefine a compelling conference theme and vision. Include:\n- Conference theme/tagline (creative and memorable)\n- Target audience (who should attend?)\n- Key topics/tracks (3-4 main themes)\n- Conference goals and value proposition\nKeep it concise - 200 words."

/-- User message of `phase_theme` (line 87). -/
def user_theme (w : Params) : String :=
  "Create a compelling theme and vision for \x27" ++ w.conference_name
  ++ "\x27, a " ++ w.duration ++ " " ++ w.conference_type ++ " conference."

/-- System prompt of `phase_speakers` (lines 114-120). -/
def sys_speakers (w : Params) : String :=
  "You are a speaker curator for " ++ w.conference_type
  ++ " conferences.\nBased on the conference theme, identify:\n- 6-8 potential speaker profiles (roles/expertise, not specific names)\n- Session types (keynotes, workshops, panels, lightning talks)\n- Topic suggestions for each track\n- Speaking format recommendations\nKeep it concise - 200 words."

/-- User message of `phase_speakers` (lines 122-125); `theme` is the stored
output `self.outputs[\x27theme\x27]`. -/
def user_speakers (w : Params) (theme : String) : String :=
  "Conference Theme and Vision:\n" ++ theme
  ++ "\n\nNow identify ideal speaker profiles and session topics for this "
  ++ w.duration ++ " conference."

/-- System prompt of `phase_schedule` (lines 152-159). -/
def sys_schedule (w : Params) : String :=
  "You are a conference schedule planner.\nBased on the theme and speaker information, create a detailed "
  ++ w.duration
  ++ " agenda:\n- Day-by-day breakdown\n- Time slots for each session (use realistic times: 9am-5pm)\n- Balance of keynotes, workshops, panels, and networking\n- Include breaks, meals, and networking time\n- Note parallel tracks if applicable\nKeep it structured and clear - 250 words."

/-- User message of `phase_schedule` (lines 161-167); reads the stored
`theme` and `speakers` outputs. -/
def user_schedule (w : Params) (theme speakers : String) : String :=
  "Conference Theme:\n" ++ theme ++ "\n\nSpeaker & Session Information:\n"
  ++ speakers ++ "\n\nCreate a detailed " ++ w.duration ++ " conference schedule."

/-- System prompt of `phase_logistics` (lines 194-201). -/
def sys_logistics : String :=
  "You are a conference logistics coordinator.\nBased on the schedule and expected attendees, plan:\n- Venue requirements (room sizes, AV equipment, layout)\n- Catering needs (meals, breaks, dietary considerations)\n- Registration and check-in process\n- Technology requirements (WiFi, streaming, app)\n- Contingency plans\nKeep it practical and concise - 200 words."

/-- User message of `phase_logistics` (lines 203-209); reads the stored
`schedule` and `theme` outputs (and, notably, not the `speakers` output). -/
def user_logistics (schedule theme : String) : String :=
  "Conference Schedule:\n" ++ schedule ++ "\n\nConference Theme & Audience:\n"
  ++ theme ++ "\n\nPlan the logistics for this conference."

/-- System prompt of `phase_marketing` (lines 236-243). -/
def sys_marketing : String :=
  "You are a conference marketing strategist.\nBased on all conference details, create a marketing plan:\n- Key marketing messages and positioning\n- Target promotion channels (social media, email, partnerships)\n- Early bird vs regular pricing strategy\n- Promotional timeline (3 months before event)\n- Content marketing ideas\nKeep it actionable - 200 words."

/-- User message of `phase_marketing` (lines 245-253); reads the stored
`theme` and `schedule` outputs (not `speakers`, not `logistics`). -/
def user_marketing (theme schedule : String) : String :=
  "Conference Details:\n\nTheme & Vision:\n" ++ theme
  ++ "\n\nSchedule Overview:\n" ++ schedule
  ++ "\n\nCreate a comprehensive marketing strategy for this conference."

/-- One phase body: issue the generation call with the given prompts inside
`try`; on success store the returned text (`self.outputs[name] = ...`), on
failure re-raise the exception unchanged (`except Exception as e: ... raise`).
Returns the events of the phase and either the stored output or the error. -/
def runStage (gen : Gen) (name sys user : String) :
    List Event × Except String String :=
  match gen sys user with
  | Except.ok out => ([Event.genCall name sys user, Event.store name out], Except.ok out)
  | Except.error e => ([Event.genCall name sys user], Except.error e)

/-- `phase_theme` (lines 72-105). -/
def phase_theme (w : Params) (gen : Gen) : List Event × Except String String :=
  runStage gen "theme" (sys_theme w) (user_theme w)

/-- `phase_speakers` (lines 107-143). -/
def phase_speakers (w : Params) (gen : Gen) (theme : String) :
    List Event × Except String String :=
  runStage gen "speakers" (sys_speakers w) (user_speakers w theme)

/-- `phase_schedule` (lines 145-185). -/
def phase_schedule (w : Params) (gen : Gen) (theme speakers : String) :
    List Event × Except String String :=
  runStage gen "schedule" (sys_schedule w) (user_schedule w theme speakers)

/-- `phase_logistics` (lines 187-227). -/
def phase_logistics (_w : Params) (gen : Gen) (schedule theme : String) :
    List Event × Except String String :=
  runStage gen "logistics" sys_logistics (user_logistics schedule theme)

/-- `phase_marketing` (lines 229-271). -/
def phase_marketing (_w : Params) (gen : Gen) (theme schedule : String) :
    List Event × Except String String :=
  runStage gen "marketing" sys_marketing (user_marketing theme schedule)

/-- The five phases of `run` (lines 54-67), executed in order; an exception
in any phase propagates immediately, skipping the rest.  On success the
accumulated `self.outputs` dictionary is the insertion-ordered association
list of the five stage outputs. -/
def runPhases (w : Params) (gen : Gen) :
    List Event × Except String (List (String × String)) :=
  match phase_theme w gen with
  | (t1, Except.error e) => (t1, Except.error e)
  | (t1, Except.ok theme) =>
    match phase_speakers w gen theme with
    | (t2, Except.error e) => (t1 ++ t2, Except.error e)
    | (t2, Except.ok speakers) =>
      match phase_schedule w gen theme speakers with
      | (t3, Except.error e) => (t1 ++ t2 ++ t3, Except.error e)
      | (t3, Except.ok schedule) =>
        match phase_logistics w gen schedule theme with
        | (t4, Except.error e) => (t1 ++ t2 ++ t3 ++ t4, Except.error e)
        | (t4, Except.ok logistics) =>
          match phase_marketing w gen theme schedule with
          | (t5, Except.error e) => (t1 ++ t2 ++ t3 ++ t4 ++ t5, Except.error e)
          | (t5, Except.ok marketing) =>
            (t1 ++ t2 ++ t3 ++ t4 ++ t5,
             Except.ok [("theme", theme), ("speakers", speakers),
                        ("schedule", schedule), ("logistics", logistics),
                        ("marketing", marketing)])

/-- A line of 80 equal signs (`"="*80` in the source). -/
def eq80 : String := String.mk (List.replicate 80 '=')

/-- A line of 80 dashes (`"-"*80` in the source). -/
def dash80 : String := String.mk (List.replicate 80 '-')

/-- One section block of the output document (lines 325-329). -/
def sectionBlock (title body : String) : String :=
  "\n" ++ dash80 ++ "\n" ++ title ++ "\n" ++ dash80 ++ "\n" ++ body ++ "\n"

/-- The document text written by `print_summary` (lines 316-329): a header
with the run metadata (including the `Generated:` wall-clock timestamp `now`)
followed by one section per stage in pipeline order.  Accessing a missing
stage key (`self.outputs[key]`) would raise, modelled by `none`. -/
def renderDoc (w : Params) (now : String) (outs : List (String × String)) :
    Option String :=
  match outs.lookup "theme", outs.lookup "speakers", outs.lookup "schedule",
        outs.lookup "logistics", outs.lookup "marketing" with
  | some t, some s, some c, some l, some m =>
    some (eq80 ++ "\n" ++ "CONFERENCE PLANNING - " ++ w.conference_name.toUpper
      ++ "\n" ++ eq80 ++ "\n" ++ "Generated: " ++ now ++ "\n"
      ++ "Model: " ++ w.model ++ "\n" ++ "Type: " ++ w.conference_type ++ "\n"
      ++ "Duration: " ++ w.duration ++ "\n\n"
      ++ sectionBlock "THEME & VISION" t
      ++ sectionBlock "SPEAKERS & TOPICS" s
      ++ sectionBlock "CONFERENCE SCHEDULE" c
      ++ sectionBlock "LOGISTICS PLAN" l
      ++ sectionBlock "MARKETING STRATEGY" m)
  | _, _, _, _, _ => none

/-- `print_summary` (lines 273-333), restricted to its observable file
action: it writes the rendered document to
`conference_plan_{timestamp}.txt`, where `ts` is the
`datetime.now().strftime(...)` filename timestamp. -/
def print_summary (w : Params) (ts now : String)
    (outs : List (String × String)) : List Event :=
  match renderDoc w now outs with
  | some doc => [Event.fileWrite ("conference_plan_" ++ ts ++ ".txt") doc]
  | none => []

/-- `run` (lines 44-70): execute the five phases in order and, only if all
succeeded, call `print_summary`, which persists the document. -/
def run (w : Params) (gen : Gen) (ts now : String) :
    List Event × Except String (List (String × String)) :=
  match runPhases w gen with
  | (tr, Except.ok outs) => (tr ++ print_summary w ts now outs, Except.ok outs)
  | (tr, Except.error e) => (tr, Except.error e)

/-- The pipeline order of the five stages as executed by `run`. -/
def stagePipeline : List String :=
  ["theme", "speakers", "schedule", "logistics", "marketing"]

/-- Stage names of the `store` events of a trace, in order. -/
def storeNames (tr : List Event) : List String :=
  tr.filterMap fun ev =>
    match ev with
    | Event.store n _ => some n
    | _ => none

/-- Stage names of the `genCall` events of a trace, in order. -/
def callNames (tr : List Event) : List String :=
  tr.filterMap fun ev =>
    match ev with
    | Event.genCall n _ _ => some n
    | _ => none

/-- Whether a trace contains a file write. -/
def hasFileWrite (tr : List Event) : Bool :=
  tr.any fun ev =>
    match ev with
    | Event.fileWrite _ _ => true
    | _ => false

/-- The (filename, content) pairs written by a trace, in order. -/
def writtenFiles (tr : List Event) : List (String × String) :=
  tr.filterMap fun ev =>
    match ev with
    | Event.fileWrite f c => some (f, c)
    | _ => none

/-- The canonical user message of a stage as a function of the run
parameters and the outputs available so far: exactly the prompt the source
builds for that stage, reading only the listed prior outputs. -/
def mkUser (stage : String) (w : Params) (prior : List (String × String)) :
    Option String :=
  match stage with
  | "theme" => some (user_theme w)
  | "speakers" => (prior.lookup "theme").map (user_speakers w)
  | "schedule" =>
    match prior.lookup "theme", prior.lookup "speakers" with
    | some t, some s => some (user_schedule w t s)
    | _, _ => none
  | "logistics" =>
    match prior.lookup "schedule", prior.lookup "theme" with
    | some c, some t => some (user_logistics c t)
    | _, _ => none
  | "marketing" =>
    match prior.lookup "theme", prior.lookup "schedule" with
    | some t, some c => some (user_marketing t c)
    | _, _ => none
  | _ => none

/-- Scans a trace, accumulating stored outputs, and requires every
generation call's user message to be the canonical message built from the
outputs stored strictly earlier in the trace. -/
def promptsOk (w : Params) : List (String × String) → List Event → Prop
  | _, [] => True
  | prior, Event.genCall n _ user :: rest =>
    mkUser n w prior = some user ∧ promptsOk w prior rest
  | prior, Event.store n v :: rest => promptsOk w (prior ++ [(n, v)]) rest
  | prior, Event.fileWrite _ _ :: rest => promptsOk w prior rest

/-- Requires a trace to be a sequential walk of the pipeline starting at
stage index `i`: each generation call names the next pipeline stage and is
immediately followed by the store of that same stage (or ends the trace, for
a failing call); a file write may occur only once all five stages are done,
as the final event. -/
def sequentialTrace : Nat → List Event → Prop
  | _, [] => True
  | i, Event.genCall n _ _ :: rest =>
    i < 5 ∧ n = stagePipeline.getD i "" ∧
    (match rest with
     | [] => True
     | Event.store n2 _ :: rest2 =>
       n2 = stagePipeline.getD i "" ∧ sequentialTrace (i + 1) rest2
     | _ => False)
  | _, Event.store _ _ :: _ => False
  | i, Event.fileWrite _ _ :: rest => i = 5 ∧ rest = []

/-- A stub collaborator that echoes its input (returns the user message). -/
def genEcho : Gen := fun _ user => Except.ok user

/-- A stub collaborator that always fails with error text `boom`. -/
def genFail : Gen := fun _ _ => Except.error "boom"

/-- Small concrete run parameters used in concrete instances. -/
def wSample : Params := ⟨"AI", "tech", "3 days", "m"⟩

/-- The output stored for `theme` on a run with the echo stub. -/
def echoTheme (w : Params) : String := user_theme w

/-- The output stored for `speakers` on a run with the echo stub. -/
def echoSpeakers (w : Params) : String := user_speakers w (echoTheme w)

/-- The output stored for `schedule` on a run with the echo stub. -/
def echoSchedule (w : Params) : String :=
  user_schedule w (echoTheme w) (echoSpeakers w)

/-- The output stored for `logistics` on a run with the echo stub. -/
def echoLogistics (w : Params) : String :=
  user_logistics (echoSchedule w) (echoTheme w)

/-- The user message built for `marketing` on a run with the echo stub
(also the output stored for `marketing`). -/
def echoMarketing (w : Params) : String :=
  user_marketing (echoTheme w) (echoSchedule w)

end AutogenDemo

namespace CrewaiDemo

/-- `search_flight_prices` (lines 44-65): builds an (unused) search query and
returns a templated research prompt; no network request is made. -/
def search_flight_prices (destination : String)
    (departure_city : String := "New York") : String :=
  "\n    Research task: Find flights from " ++ departure_city ++ " to "
  ++ destination
  ++ ".\n\n    Please research and provide:\n    1. Current flight options with prices (check Kayak, Skyscanner, Google Flights)\n    2. Airlines operating these routes\n    3. Flight durations and layover information\n    4. Best booking times and price trends\n    5. Seasonal pricing variations\n\n    Focus on realistic, current pricing for January 2026 travel.\n    "

/-- `search_hotel_options` (lines 68-88). -/
def search_hotel_options (location check_in_date : String) : String :=
  "\n    Research task: Find hotels in " ++ location ++ " for check-in "
  ++ check_in_date
  ++ ".\n\n    Please research and provide:\n    1. Top-rated hotels with guest reviews (check Booking.com, TripAdvisor, Google Hotels)\n    2. Current pricing for 5-night stays\n    3. Hotel amenities and facilities\n    4. Location details and proximity to attractions\n    5. Guest ratings and recommendation reasons\n\n    Include budget, mid-range, and luxury options.\n    Focus on hotels with high ratings and realistic current prices.\n    "

/-- `search_attractions_activities` (lines 91-113). -/
def search_attractions_activities (destination : String) : String :=
  "\n    Research task: Find attractions and activities in " ++ destination
  ++ ".\n\n    Please research and provide:\n    1. Top-rated attractions and their estimated visit times\n    2. Popular day tours and multi-day excursions\n    3. Outdoor activities (hiking, water sports, wildlife viewing)\n    4. Cultural sites and local experiences\n    5. Typical costs for tours and entrance fees\n    6. Best time to visit each location\n    7. Transportation options between sites\n\n    Include hidden gems and less-known but highly-rated activities.\n    Focus on realistic itineraries that can be completed in 5 days.\n    "

/-- `search_travel_costs` (lines 116-138). -/
def search_travel_costs (destination : String) : String :=
  "\n    Research task: Find cost information for a trip to " ++ destination
  ++ ".\n\n    Please research and provide:\n    1. Average meal costs (budget, mid-range, restaurants)\n    2. Public transportation costs and rental car prices\n    3. Tour and activity pricing\n    4. Entrance fees for attractions\n    5. Estimated daily costs for different budget levels\n    6. Money-saving tips and best budget periods\n    7. Currency exchange rates and payment methods\n\n    Provide realistic, current pricing information for 2025.\n    Focus on actual costs travelers can expect.\n    "

/-- The `hotel_location` computation inside `create_hotel_agent`
(lines 176-182): capital substitution for country destinations. -/
def create_hotel_agent_location (destination : String) : String :=
  if destination.toLower = "iceland" then "Reykjavik"
  else if destination.toLower = "france" then "Paris"
  else if destination.toLower = "japan" then "Tokyo"
  else destination

/-- The `goal` string of the agent built by `create_hotel_agent`
(lines 193-195). -/
def create_hotel_agent_goal (destination trip_dates : String) : String :=
  "Suggest top-rated hotels in " ++ create_hotel_agent_location destination
  ++ " for the " ++ destination ++ " trip (" ++ trip_dates
  ++ "), considering amenities, location, and value for money. Use real hotel data from booking sites with current prices and reviews."

/-- The `hotel_location` computation inside `create_hotel_task`
(lines 319-325); textually duplicated from `create_hotel_agent`. -/
def create_hotel_task_location (destination : String) : String :=
  if destination.toLower = "iceland" then "Reykjavik"
  else if destination.toLower = "france" then "Paris"
  else if destination.toLower = "japan" then "Tokyo"
  else destination

/-- The `description` string of the task built by `create_hotel_task`
(lines 328-333). -/
def create_hotel_task_description (destination trip_dates : String) : String :=
  "Based on the trip dates (" ++ trip_dates
  ++ "), find and recommend the top 3-4 REAL hotels in "
  ++ create_hotel_task_location destination
  ++ ". Research actual hotels on Booking.com, TripAdvisor, Google Hotels, and Expedia. For each hotel, provide the actual name, current guest ratings, real prices per night, confirmed amenities, and explain why it suits this trip. Include a mix of budget, mid-range, and luxury options with honest reviews."

/-- The keyword arguments assembled by the crewai `__main__` block. -/
structure CrewKwargs where
  destination : String
  trip_duration : String
  trip_dates : String
  departure_city : String
  travelers : Option Int
  budget_preference : String
deriving DecidableEq, Repr

/-- The crewai `__main__` argument handling (lines 568-596): `argv` is the
list of positional arguments after the script name (`sys.argv[1:]`); each
present argument overrides the corresponding default, in the order
destination, duration, departure city, dates, travelers, budget preference.
`int(sys.argv[5])` is modelled by `String.toInt?` (`none` for the
`ValueError` crash). -/
def crewaiParseArgs (argv : List String) : CrewKwargs :=
  { destination := (argv[0]?).getD "Iceland"
    trip_duration := (argv[1]?).getD "5 days"
    trip_dates := (argv[3]?).getD "January 15-20, 2026"
    departure_city := (argv[2]?).getD "New York"
    travelers :=
      match argv[4]? with
      | some s => s.toInt?
      | none => some (2 : Int)
    budget_preference := (argv[5]?).getD "mid-range" }

/-- Exit code of the crewai `main` (lines 402-565): `exit(1)` when
`validate_config()` fails; otherwise the crew is kicked off and, whether it
succeeds or raises (the `except` block only prints troubleshooting text and
a traceback), `main` returns normally and the process exits 0. -/
def crewaiExitCode (configValid : Bool) (kickoff : Except String String) : Nat :=
  if configValid then
    match kickoff with
    | Except.ok _ => 0
    | Except.error _ => 0
  else 1

/-- The output filename of the crewai `main` (line 524):
`crewai_output_{destination.lower()}.txt` — no timestamp. -/
def crewaiOutputFile (destination : String) : String :=
  "crewai_output_" ++ destination.toLower ++ ".txt"

end CrewaiDemo

namespace AutogenDemo

/-- The run parameters chosen by the autogen `__main__` block
(lines 354-365): they are constants in the file; the command line is never
read (the argument vector is ignored). -/
def autogenMainParams (_argv : List String) : String × String × String :=
  ("AI Horizons 2026", "AI/ML technology", "3 days")

/-- Exit code of the autogen script (lines 31-35 and 359-374): `exit(1)` in
`__init__` when `Config.validate_setup()` fails; otherwise the workflow runs
inside `try`, and the `except` block only prints the error and
troubleshooting text, so the script reaches its end and exits 0 whether the
run succeeded or failed. -/
def autogenExitCode (configValid : Bool) (w : Params) (gen : Gen)
    (ts now : String) : Nat :=
  if configValid then
    match (run w gen ts now).2 with
    | Except.ok _ => 0
    | Except.error _ => 0
  else 1

/-- The output filename of `print_summary` (lines 314-315):
`conference_plan_{timestamp}.txt` with a seconds-resolution timestamp. -/
def autogenOutputFile (ts : String) : String :=
  "conference_plan_" ++ ts ++ ".txt"

/-- The document text produced by `print_summary` for a complete set of
stage outputs, as an explicit function of the metadata, the `Generated:`
timestamp and the five outputs. -/
def renderedDoc (w : Params) (now t s c l m : String) : String :=
  eq80 ++ "\n" ++ "CONFERENCE PLANNING - " ++ w.conference_name.toUpper
    ++ "\n" ++ eq80 ++ "\n" ++ "Generated: " ++ now ++ "\n"
    ++ "Model: " ++ w.model ++ "\n" ++ "Type: " ++ w.conference_type ++ "\n"
    ++ "Duration: " ++ w.duration ++ "\n\n"
    ++ sectionBlock "THEME & VISION" t
    ++ sectionBlock "SPEAKERS & TOPICS" s
    ++ sectionBlock "CONFERENCE SCHEDULE" c
    ++ sectionBlock "LOGISTICS PLAN" l
    ++ sectionBlock "MARKETING STRATEGY" m

/-- Concrete stored outputs used for the renderer counterexample. -/
def outsSample : List (String × String) :=
  [("theme", "T"), ("speakers", "S"), ("schedule", "C"),
   ("logistics", "L"), ("marketing", "M")]

end AutogenDemo

-- Theorems.
theorem containsStr_refl (s : String) : containsStr s s :=
  ⟨[], [], by simp⟩

theorem containsStr_append_left (p : String) {s x : String}
    (h : containsStr s x) : containsStr (p ++ s) x := by
  rcases h with ⟨a, b, hab⟩
  exact ⟨p.data ++ a, b, by rw [String.data_append, ← hab]; simp⟩

theorem containsStr_append_right (r : String) {s x : String}
    (h : containsStr s x) : containsStr (s ++ r) x := by
  rcases h with ⟨a, b, hab⟩
  exact ⟨a, b ++ r.data, by rw [String.data_append, ← hab]; simp⟩

theorem not_containsStr_of_char {big small : String} (c : Char)
    (hc : c ∈ small.data) (hb : c ∉ big.data) : ¬ containsStr big small := by
  rintro ⟨a, b, h⟩
  exact hb (by rw [← h]; simp [hc])

namespace AutogenDemo

theorem renderDoc_complete (w : Params) (now t s c l m : String) :
    renderDoc w now
      [("theme", t), ("speakers", s), ("schedule", c), ("logistics", l),
       ("marketing", m)] = some (renderedDoc w now t s c l m) := rfl

theorem print_summary_complete (w : Params) (ts now t s c l m : String) :
    print_summary w ts now
      [("theme", t), ("speakers", s), ("schedule", c), ("logistics", l),
       ("marketing", m)]
    = [Event.fileWrite (autogenOutputFile ts) (renderedDoc w now t s c l m)] :=
  rfl

/-- Exhaustive characterization of a run: either some stage's generation
call fails — then the trace is the alternating call/store prefix up to and
including the failing call, the error propagates unchanged, and nothing is
written — or all five succeed and the document is persisted. -/
theorem run_spec (w : Params) (gen : Gen) (ts now : String) :
    (∃ e, gen (sys_theme w) (user_theme w) = Except.error e ∧
      run w gen ts now =
        ([Event.genCall "theme" (sys_theme w) (user_theme w)],
         Except.error e)) ∨
    (∃ t e, gen (sys_theme w) (user_theme w) = Except.ok t ∧
      gen (sys_speakers w) (user_speakers w t) = Except.error e ∧
      run w gen ts now =
        ([Event.genCall "theme" (sys_theme w) (user_theme w),
          Event.store "theme" t,
          Event.genCall "speakers" (sys_speakers w) (user_speakers w t)],
         Except.error e)) ∨
    (∃ t s e, gen (sys_theme w) (user_theme w) = Except.ok t ∧
      gen (sys_speakers w) (user_speakers w t) = Except.ok s ∧
      gen (sys_schedule w) (user_schedule w t s) = Except.error e ∧
      run w gen ts now =
        ([Event.genCall "theme" (sys_theme w) (user_theme w),
          Event.store "theme" t,
          Event.genCall "speakers" (sys_speakers w) (user_speakers w t),
          Event.store "speakers" s,
          Event.genCall "schedule" (sys_schedule w) (user_schedule w t s)],
         Except.error e)) ∨
    (∃ t s c e, gen (sys_theme w) (user_theme w) = Except.ok t ∧
      gen (sys_speakers w) (user_speakers w t) = Except.ok s ∧
      gen (sys_schedule w) (user_schedule w t s) = Except.ok c ∧
      gen sys_logistics (user_logistics c t) = Except.error e ∧
      run w gen ts now =
        ([Event.genCall "theme" (sys_theme w) (user_theme w),
          Event.store "theme" t,
          Event.genCall "speakers" (sys_speakers w) (user_speakers w t),
          Event.store "speakers" s,
          Event.genCall "schedule" (sys_schedule w) (user_schedule w t s),
          Event.store "schedule" c,
          Event.genCall "logistics" sys_logistics (user_logistics c t)],
         Except.error e)) ∨
    (∃ t s c l e, gen (sys_theme w) (user_theme w) = Except.ok t ∧
      gen (sys_speakers w) (user_speakers w t) = Except.ok s ∧
      gen (sys_schedule w) (user_schedule w t s) = Except.ok c ∧
      gen sys_logistics (user_logistics c t) = Except.ok l ∧
      gen sys_marketing (user_marketing t c) = Except.error e ∧
      run w gen ts now =
        ([Event.genCall "theme" (sys_theme w) (user_theme w),
          Event.store "theme" t,
          Event.genCall "speakers" (sys_speakers w) (user_speakers w t),
          Event.store "speakers" s,
          Event.genCall "schedule" (sys_schedule w) (user_schedule w t s),
          Event.store "schedule" c,
          Event.genCall "logistics" sys_logistics (user_logistics c t),
          Event.store "logistics" l,
          Event.genCall "marketing" sys_marketing (user_marketing t c)],
         Except.error e)) ∨
    (∃ t s c l m, gen (sys_theme w) (user_theme w) = Except.ok t ∧
      gen (sys_speakers w) (user_speakers w t) = Except.ok s ∧
      gen (sys_schedule w) (user_schedule w t s) = Except.ok c ∧
      gen sys_logistics (user_logistics c t) = Except.ok l ∧
      gen sys_marketing (user_marketing t c) = Except.ok m ∧
      run w gen ts now =
        ([Event.genCall "theme" (sys_theme w) (user_theme w),
          Event.store "theme" t,
          Event.genCall "speakers" (sys_speakers w) (user_speakers w t),
          Event.store "speakers" s,
          Event.genCall "schedule" (sys_schedule w) (user_schedule w t s),
          Event.store "schedule" c,
          Event.genCall "logistics" sys_logistics (user_logistics c t),
          Event.store "logistics" l,
          Event.genCall "marketing" sys_marketing (user_marketing t c),
          Event.store "marketing" m,
          Event.fileWrite (autogenOutputFile ts) (renderedDoc w now t s c l m)],
         Except.ok [("theme", t), ("speakers", s), ("schedule", c),
                    ("logistics", l), ("marketing", m)])) := by
  cases h1 : gen (sys_theme w) (user_theme w) with
  | error e =>
    exact Or.inl ⟨e, rfl, by
      simp [run, runPhases, phase_theme, runStage, h1]⟩
  | ok t =>
    cases h2 : gen (sys_speakers w) (user_speakers w t) with
    | error e =>
      exact Or.inr (Or.inl ⟨t, e, rfl, h2, by
        simp [run, runPhases, phase_theme, phase_speakers, runStage, h1, h2]⟩)
    | ok s =>
      cases h3 : gen (sys_schedule w) (user_schedule w t s) with
      | error e =>
        exact Or.inr (Or.inr (Or.inl ⟨t, s, e, rfl, h2, h3, by
          simp [run, runPhases, phase_theme, phase_speakers, phase_schedule,
                runStage, h1, h2, h3]⟩))
      | ok c =>
        cases h4 : gen sys_logistics (user_logistics c t) with
        | error e =>
          exact Or.inr (Or.inr (Or.inr (Or.inl ⟨t, s, c, e, rfl, h2, h3, h4, by
            simp [run, runPhases, phase_theme, phase_speakers, phase_schedule,
                  phase_logistics, runStage, h1, h2, h3, h4]⟩)))
        | ok l =>
          cases h5 : gen sys_marketing (user_marketing t c) with
          | error e =>
            exact Or.inr (Or.inr (Or.inr (Or.inr (Or.inl
              ⟨t, s, c, l, e, rfl, h2, h3, h4, h5, by
                simp [run, runPhases, phase_theme, phase_speakers,
                      phase_schedule, phase_logistics, phase_marketing,
                      runStage, h1, h2, h3, h4, h5]⟩))))
          | ok m =>
            exact Or.inr (Or.inr (Or.inr (Or.inr (Or.inr
              ⟨t, s, c, l, m, rfl, h2, h3, h4, h5, by
                simp [run, runPhases, phase_theme, phase_speakers,
                      phase_schedule, phase_logistics, phase_marketing,
                      runStage, h1, h2, h3, h4, h5,
                      print_summary_complete]⟩))))

end AutogenDemo

namespace AutogenDemo

/-- Claim C1 (amended): if the generation call fails on some stage, the run
stops at once — the trace holds exactly the stores of the stages before the
failing one (k of them when stage k+1, 1-indexed, fails), each earlier stage
was called exactly once and no later stage is ever called (no retry), no
file is written, and the error surfaced to the caller is exactly the error
the collaborator returned at the failing call — the originating stage name
is not attached to it. -/
theorem run_failure_aborts (w : Params) (gen : Gen) (ts now : String)
    (tr : List Event) (e : String)
    (h : run w gen ts now = (tr, Except.error e)) :
    hasFileWrite tr = false ∧
    ∃ k, k < 5 ∧ storeNames tr = stagePipeline.take k ∧
      callNames tr = stagePipeline.take (k + 1) ∧
      ∃ sys user,
        tr.getLast? = some (Event.genCall (stagePipeline.getD k "") sys user) ∧
        gen sys user = Except.error e := by
  rcases run_spec w gen ts now with
    ⟨e1, hg, hr⟩ | ⟨t, e1, h1, hg, hr⟩ | ⟨t, s, e1, h1, h2, hg, hr⟩ |
    ⟨t, s, c, e1, h1, h2, h3, hg, hr⟩ |
    ⟨t, s, c, l, e1, h1, h2, h3, h4, hg, hr⟩ |
    ⟨t, s, c, l, m, h1, h2, h3, h4, h5, hr⟩
  · rw [hr] at h
    injection h with hA hB
    subst hA
    injection hB with hB
    subst hB
    exact ⟨rfl, 0, by decide, rfl, rfl, _, _, rfl, hg⟩
  · rw [hr] at h
    injection h with hA hB
    subst hA
    injection hB with hB
    subst hB
    exact ⟨rfl, 1, by decide, rfl, rfl, _, _, rfl, hg⟩
  · rw [hr] at h
    injection h with hA hB
    subst hA
    injection hB with hB
    subst hB
    exact ⟨rfl, 2, by decide, rfl, rfl, _, _, rfl, hg⟩
  · rw [hr] at h
    injection h with hA hB
    subst hA
    injection hB with hB
    subst hB
    exact ⟨rfl, 3, by decide, rfl, rfl, _, _, rfl, hg⟩
  · rw [hr] at h
    injection h with hA hB
    subst hA
    injection hB with hB
    subst hB
    exact ⟨rfl, 4, by decide, rfl, rfl, _, _, rfl, hg⟩
  · rw [hr] at h
    injection h with hA hB
    exact absurd hB (by simp)

/-- Claim C1, stated with the witness hypothesis discharged at a concrete
input: a collaborator failing on stage 1 yields zero stored outputs, no
file write, and the raw error. -/
theorem run_failure_aborts_witness :
    hasFileWrite [Event.genCall "theme" (sys_theme wSample) (user_theme wSample)]
      = false ∧
    ∃ k, k < 5 ∧
      storeNames [Event.genCall "theme" (sys_theme wSample) (user_theme wSample)]
        = stagePipeline.take k ∧
      callNames [Event.genCall "theme" (sys_theme wSample) (user_theme wSample)]
        = stagePipeline.take (k + 1) ∧
      ∃ sys user,
        [Event.genCall "theme" (sys_theme wSample) (user_theme wSample)].getLast?
          = some (Event.genCall (stagePipeline.getD k "") sys user) ∧
        genFail sys user = Except.error "boom" :=
  run_failure_aborts wSample genFail "20260101_000000" "2026-01-01 00:00:00"
    _ "boom" rfl

/-- Claim C1 as stated is false: with a collaborator whose stage-1 failure
carries error text `boom`, the run propagates exactly `boom` — the
originating stage name `theme` is not attached to the propagated error
(every other part of the claim does hold on this run). -/
theorem run_failure_counterexample :
    run wSample genFail "20260101_000000" "2026-01-01 00:00:00"
      = ([Event.genCall "theme" (sys_theme wSample) (user_theme wSample)],
         Except.error "boom")
    ∧ ¬ containsStr "boom" "theme" :=
  ⟨rfl, not_containsStr_of_char 't' (by decide) (by decide)⟩

/-- Claim C5: every run (failing or not) is strictly sequential — the
generation calls occur exactly in pipeline order with no reordering,
skipping or interleaving, each stage's output is stored immediately after
its call returns and before the next stage's call is issued, and the file
write can only be the final event after all five stages. -/
theorem run_sequential (w : Params) (gen : Gen) (ts now : String)
    (tr : List Event) (r : Except String (List (String × String)))
    (h : run w gen ts now = (tr, r)) : sequentialTrace 0 tr := by
  rcases run_spec w gen ts now with
    ⟨e1, hg, hr⟩ | ⟨t, e1, h1, hg, hr⟩ | ⟨t, s, e1, h1, h2, hg, hr⟩ |
    ⟨t, s, c, e1, h1, h2, h3, hg, hr⟩ |
    ⟨t, s, c, l, e1, h1, h2, h3, h4, hg, hr⟩ |
    ⟨t, s, c, l, m, h1, h2, h3, h4, h5, hr⟩ <;>
  · rw [hr] at h
    injection h with hA hB
    subst hA
    simp [sequentialTrace, stagePipeline]

/-- Claim C5, applied at a concrete input (echo collaborator). -/
theorem run_sequential_witness :
    sequentialTrace 0
      (run wSample genEcho "20260101_000000" "2026-01-01 00:00:00").1 :=
  run_sequential wSample genEcho "20260101_000000" "2026-01-01 00:00:00" _ _ rfl

end AutogenDemo

namespace AutogenDemo

/-- Claim C6: throughout every run, each stage's user prompt is the
canonical message built exclusively from the outputs stored strictly
earlier in the trace (`promptsOk`), no stage is ever stored twice, and on a
successful run every stored value is still found unchanged under its stage
name in the final outputs — later stages only read it. -/
theorem run_prompts_prior_only (w : Params) (gen : Gen) (ts now : String)
    (tr : List Event) (r : Except String (List (String × String)))
    (h : run w gen ts now = (tr, r)) :
    promptsOk w [] tr ∧ (storeNames tr).Nodup ∧
    ∀ outs, r = Except.ok outs →
      ∀ n v, Event.store n v ∈ tr → outs.lookup n = some v := by
  rcases run_spec w gen ts now with
    ⟨e1, hg, hr⟩ | ⟨t, e1, h1, hg, hr⟩ | ⟨t, s, e1, h1, h2, hg, hr⟩ |
    ⟨t, s, c, e1, h1, h2, h3, hg, hr⟩ |
    ⟨t, s, c, l, e1, h1, h2, h3, h4, hg, hr⟩ |
    ⟨t, s, c, l, m, h1, h2, h3, h4, h5, hr⟩ <;>
    rw [hr] at h <;> injection h with hA hB <;> subst hA
  · refine ⟨⟨rfl, trivial⟩, ?_, ?_⟩
    · have hs : storeNames [Event.genCall "theme" (sys_theme w) (user_theme w)]
        = [] := rfl
      rw [hs]; decide
    · intro outs houts
      exact absurd houts (by simp [← hB])
  · refine ⟨⟨rfl, ⟨rfl, trivial⟩⟩, ?_, ?_⟩
    · have hs : storeNames [Event.genCall "theme" (sys_theme w) (user_theme w),
        Event.store "theme" t,
        Event.genCall "speakers" (sys_speakers w) (user_speakers w t)]
        = ["theme"] := rfl
      rw [hs]; decide
    · intro outs houts
      exact absurd houts (by simp [← hB])
  · refine ⟨⟨rfl, ⟨rfl, ⟨rfl, trivial⟩⟩⟩, ?_, ?_⟩
    · have hs : storeNames [Event.genCall "theme" (sys_theme w) (user_theme w),
        Event.store "theme" t,
        Event.genCall "speakers" (sys_speakers w) (user_speakers w t),
        Event.store "speakers" s,
        Event.genCall "schedule" (sys_schedule w) (user_schedule w t s)]
        = ["theme", "speakers"] := rfl
      rw [hs]; decide
    · intro outs houts
      exact absurd houts (by simp [← hB])
  · refine ⟨⟨rfl, ⟨rfl, ⟨rfl, ⟨rfl, trivial⟩⟩⟩⟩, ?_, ?_⟩
    · have hs : storeNames [Event.genCall "theme" (sys_theme w) (user_theme w),
        Event.store "theme" t,
        Event.genCall "speakers" (sys_speakers w) (user_speakers w t),
        Event.store "speakers" s,
        Event.genCall "schedule" (sys_schedule w) (user_schedule w t s),
        Event.store "schedule" c,
        Event.genCall "logistics" sys_logistics (user_logistics c t)]
        = ["theme", "speakers", "schedule"] := rfl
      rw [hs]; decide
    · intro outs houts
      exact absurd houts (by simp [← hB])
  · refine ⟨⟨rfl, ⟨rfl, ⟨rfl, ⟨rfl, ⟨rfl, trivial⟩⟩⟩⟩⟩, ?_, ?_⟩
    · have hs : storeNames [Event.genCall "theme" (sys_theme w) (user_theme w),
        Event.store "theme" t,
        Event.genCall "speakers" (sys_speakers w) (user_speakers w t),
        Event.store "speakers" s,
        Event.genCall "schedule" (sys_schedule w) (user_schedule w t s),
        Event.store "schedule" c,
        Event.genCall "logistics" sys_logistics (user_logistics c t),
        Event.store "logistics" l,
        Event.genCall "marketing" sys_marketing (user_marketing t c)]
        = ["theme", "speakers", "schedule", "logistics"] := rfl
      rw [hs]; decide
    · intro outs houts
      exact absurd houts (by simp [← hB])
  · refine ⟨⟨rfl, ⟨rfl, ⟨rfl, ⟨rfl, ⟨rfl, trivial⟩⟩⟩⟩⟩, ?_, ?_⟩
    · have hs : storeNames [Event.genCall "theme" (sys_theme w) (user_theme w),
        Event.store "theme" t,
        Event.genCall "speakers" (sys_speakers w) (user_speakers w t),
        Event.store "speakers" s,
        Event.genCall "schedule" (sys_schedule w) (user_schedule w t s),
        Event.store "schedule" c,
        Event.genCall "logistics" sys_logistics (user_logistics c t),
        Event.store "logistics" l,
        Event.genCall "marketing" sys_marketing (user_marketing t c),
        Event.store "marketing" m,
        Event.fileWrite (autogenOutputFile ts) (renderedDoc w now t s c l m)]
        = ["theme", "speakers", "schedule", "logistics", "marketing"] := rfl
      rw [hs]; decide
    · intro outs houts n v hm
      rw [← hB] at houts
      injection houts with houts
      subst houts
      simp only [List.mem_cons, List.not_mem_nil, or_false] at hm
      rcases hm with hc | hc | hc | hc | hc | hc | hc | hc | hc | hc | hc
      · exact absurd hc (by simp)
      · injection hc with hn hv
        subst hn; subst hv; rfl
      · exact absurd hc (by simp)
      · injection hc with hn hv
        subst hn; subst hv; rfl
      · exact absurd hc (by simp)
      · injection hc with hn hv
        subst hn; subst hv; rfl
      · exact absurd hc (by simp)
      · injection hc with hn hv
        subst hn; subst hv; rfl
      · exact absurd hc (by simp)
      · injection hc with hn hv
        subst hn; subst hv; rfl
      · exact absurd hc (by simp)

/-- Claim C6, applied at a concrete input (echo collaborator). -/
theorem run_prompts_prior_only_witness :
    promptsOk wSample []
      (run wSample genEcho "20260101_000000" "2026-01-01 00:00:00").1 ∧
    (storeNames
      (run wSample genEcho "20260101_000000" "2026-01-01 00:00:00").1).Nodup ∧
    ∀ outs,
      (run wSample genEcho "20260101_000000" "2026-01-01 00:00:00").2
        = Except.ok outs →
      ∀ n v,
        Event.store n v
          ∈ (run wSample genEcho "20260101_000000" "2026-01-01 00:00:00").1 →
        outs.lookup n = some v :=
  run_prompts_prior_only wSample genEcho "20260101_000000"
    "2026-01-01 00:00:00" _ _ rfl

end AutogenDemo

namespace AutogenDemo

/-- Claim C2 (amended): for every run parameter set, a complete run with the
echo stub produces exactly one stored output per stage, keyed by stage name
in pipeline order, and each stage's request text contains — verbatim — the
outputs of the fixed set of prior stages its prompt template reads: the
theme for `speakers`; theme and speakers for `schedule`; schedule and theme
for `logistics`; theme and schedule (only) for `marketing`. -/
theorem run_echo_outputs (w : Params) (ts now : String) :
    (run w genEcho ts now).2 =
      Except.ok [("theme", echoTheme w), ("speakers", echoSpeakers w),
                 ("schedule", echoSchedule w), ("logistics", echoLogistics w),
                 ("marketing", echoMarketing w)] ∧
    containsStr (user_speakers w (echoTheme w)) (echoTheme w) ∧
    containsStr (user_schedule w (echoTheme w) (echoSpeakers w)) (echoTheme w) ∧
    containsStr (user_schedule w (echoTheme w) (echoSpeakers w)) (echoSpeakers w) ∧
    containsStr (user_logistics (echoSchedule w) (echoTheme w)) (echoSchedule w) ∧
    containsStr (user_logistics (echoSchedule w) (echoTheme w)) (echoTheme w) ∧
    containsStr (user_marketing (echoTheme w) (echoSchedule w)) (echoTheme w) ∧
    containsStr (user_marketing (echoTheme w) (echoSchedule w)) (echoSchedule w) := by
  refine ⟨rfl, ?_, ?_, ?_, ?_, ?_, ?_, ?_⟩ <;>
    simp only [user_speakers, user_schedule, user_logistics, user_marketing] <;>
    repeat
      first
      | exact containsStr_append_left _ (containsStr_refl _)
      | apply containsStr_append_right

set_option maxRecDepth 100000 in
set_option maxHeartbeats 1000000 in
/-- Claim C2 as stated is false: on the concrete echo run, stage 5
(`marketing`) issues a request that does not contain the stored output of
stage 4 (`logistics`) — its prompt template only embeds the theme and
schedule outputs.  The other clauses (one output per stage, in order) hold,
as the first conjunct shows. -/
theorem run_echo_counterexample :
    (run wSample genEcho "20260101_000000" "2026-01-01 00:00:00").2 =
      Except.ok [("theme", echoTheme wSample),
                 ("speakers", echoSpeakers wSample),
                 ("schedule", echoSchedule wSample),
                 ("logistics", echoLogistics wSample),
                 ("marketing", echoMarketing wSample)] ∧
    Event.store "logistics" (echoLogistics wSample)
      ∈ (run wSample genEcho "20260101_000000" "2026-01-01 00:00:00").1 ∧
    Event.genCall "marketing" sys_marketing (echoMarketing wSample)
      ∈ (run wSample genEcho "20260101_000000" "2026-01-01 00:00:00").1 ∧
    ¬ containsStr (echoMarketing wSample) (echoLogistics wSample) := by
  have htr : (run wSample genEcho "20260101_000000" "2026-01-01 00:00:00").1
      = [Event.genCall "theme" (sys_theme wSample) (echoTheme wSample),
         Event.store "theme" (echoTheme wSample),
         Event.genCall "speakers" (sys_speakers wSample) (echoSpeakers wSample),
         Event.store "speakers" (echoSpeakers wSample),
         Event.genCall "schedule" (sys_schedule wSample) (echoSchedule wSample),
         Event.store "schedule" (echoSchedule wSample),
         Event.genCall "logistics" sys_logistics (echoLogistics wSample),
         Event.store "logistics" (echoLogistics wSample),
         Event.genCall "marketing" sys_marketing (echoMarketing wSample),
         Event.store "marketing" (echoMarketing wSample),
         Event.fileWrite (autogenOutputFile "20260101_000000")
           (renderedDoc wSample "2026-01-01 00:00:00" (echoTheme wSample)
             (echoSpeakers wSample) (echoSchedule wSample)
             (echoLogistics wSample) (echoMarketing wSample))] := rfl
  refine ⟨rfl, ?_, ?_, ?_⟩
  · rw [htr]; simp
  · rw [htr]; simp
  · exact not_containsStr_of_char 'P' (by decide) (by decide)

end AutogenDemo

namespace AutogenDemo

set_option maxHeartbeats 1000000 in
/-- Claim C3 (amended): `print_summary` is not pure — it persists the
document to a file and its text embeds the render-time `Generated:`
timestamp — but, the timestamp being fixed, the persisted document is a
deterministic function of the run parameters and the stored outputs: any
two runs (under any collaborators) that produce the same `RunResult` write
byte-identical documents to the same filename. -/
theorem render_deterministic (w : Params) (gen1 gen2 : Gen) (ts now : String)
    (tr1 tr2 : List Event) (outs : List (String × String))
    (h1 : run w gen1 ts now = (tr1, Except.ok outs))
    (h2 : run w gen2 ts now = (tr2, Except.ok outs)) :
    ∃ d, renderDoc w now outs = some d ∧
      writtenFiles tr1 = [(autogenOutputFile ts, d)] ∧
      writtenFiles tr2 = writtenFiles tr1 := by
  rcases run_spec w gen1 ts now with
    ⟨e1, hg, hr⟩ | ⟨t, e1, ha, hg, hr⟩ | ⟨t, s, e1, ha, hb, hg, hr⟩ |
    ⟨t, s, c, e1, ha, hb, hc, hg, hr⟩ |
    ⟨t, s, c, l, e1, ha, hb, hc, hd, hg, hr⟩ |
    ⟨t, s, c, l, m, ha, hb, hc, hd, he, hr⟩ <;>
    rw [hr] at h1 <;> injection h1 with hA hB
  · exact absurd hB (by simp)
  · exact absurd hB (by simp)
  · exact absurd hB (by simp)
  · exact absurd hB (by simp)
  · exact absurd hB (by simp)
  · subst hA
    injection hB with hB
    subst hB
    rcases run_spec w gen2 ts now with
      ⟨e2, hg2, hr2⟩ | ⟨t2, e2, ha2, hg2, hr2⟩ | ⟨t2, s2, e2, ha2, hb2, hg2, hr2⟩ |
      ⟨t2, s2, c2, e2, ha2, hb2, hc2, hg2, hr2⟩ |
      ⟨t2, s2, c2, l2, e2, ha2, hb2, hc2, hd2, hg2, hr2⟩ |
      ⟨t2, s2, c2, l2, m2, ha2, hb2, hc2, hd2, he2, hr2⟩ <;>
      rw [hr2] at h2 <;> injection h2 with hA2 hB2
    · exact absurd hB2 (by simp)
    · exact absurd hB2 (by simp)
    · exact absurd hB2 (by simp)
    · exact absurd hB2 (by simp)
    · exact absurd hB2 (by simp)
    · subst hA2
      injection hB2 with hB2
      injection hB2 with hp1 hB2
      injection hp1 with hk1 hv1
      subst hv1
      injection hB2 with hp2 hB2
      injection hp2 with hk2 hv2
      subst hv2
      injection hB2 with hp3 hB2
      injection hp3 with hk3 hv3
      subst hv3
      injection hB2 with hp4 hB2
      injection hp4 with hk4 hv4
      subst hv4
      injection hB2 with hp5 hB2
      injection hp5 with hk5 hv5
      subst hv5
      exact ⟨_, renderDoc_complete w now _ _ _ _ _, rfl, rfl⟩

/-- Claim C3, applied at a concrete input (echo collaborator twice). -/
theorem render_deterministic_witness :
    ∃ d, renderDoc wSample "2026-01-01 00:00:00"
        [("theme", echoTheme wSample), ("speakers", echoSpeakers wSample),
         ("schedule", echoSchedule wSample), ("logistics", echoLogistics wSample),
         ("marketing", echoMarketing wSample)] = some d ∧
      writtenFiles
        (run wSample genEcho "20260101_000000" "2026-01-01 00:00:00").1
        = [(autogenOutputFile "20260101_000000", d)] ∧
      writtenFiles
        (run wSample genEcho "20260101_000000" "2026-01-01 00:00:00").1
        = writtenFiles
            (run wSample genEcho "20260101_000000" "2026-01-01 00:00:00").1 :=
  render_deterministic wSample genEcho genEcho "20260101_000000"
    "2026-01-01 00:00:00" _ _ _ rfl rfl

/-- The `Generated:` timestamp is recoverable from the rendered document:
two renders of the same outputs agree only if the timestamps agree. -/
theorem renderedDoc_now_inj (w : Params) (n1 n2 t s c l m : String)
    (h : renderedDoc w n1 t s c l m = renderedDoc w n2 t s c l m) :
    n1 = n2 := by
  have hd := congrArg String.data h
  simp only [renderedDoc, String.data_append, List.append_assoc] at hd
  replace hd := List.append_cancel_left hd
  replace hd := List.append_cancel_left hd
  replace hd := List.append_cancel_left hd
  replace hd := List.append_cancel_left hd
  replace hd := List.append_cancel_left hd
  replace hd := List.append_cancel_left hd
  replace hd := List.append_cancel_left hd
  replace hd := List.append_cancel_left hd
  replace hd := List.append_cancel_right hd
  exact String.ext hd

/-- Claim C3 as stated is false: the renderer is not a pure side-effect-free
function of the `RunResult` alone — rendering the same stored outputs at two
different wall-clock times yields different document text (the `Generated:`
header embeds `datetime.now()`), and a successful run's renderer writes a
file (a side effect). -/
theorem render_counterexample :
    renderDoc wSample "2026-01-01 10:00:00" outsSample
      ≠ renderDoc wSample "2026-01-02 11:30:00" outsSample ∧
    writtenFiles
      (run wSample genEcho "20260101_000000" "2026-01-01 00:00:00").1 ≠ [] := by
  constructor
  · intro h
    have h1 : renderDoc wSample "2026-01-01 10:00:00" outsSample
        = some (renderedDoc wSample "2026-01-01 10:00:00" "T" "S" "C" "L" "M") :=
      rfl
    have h2 : renderDoc wSample "2026-01-02 11:30:00" outsSample
        = some (renderedDoc wSample "2026-01-02 11:30:00" "T" "S" "C" "L" "M") :=
      rfl
    rw [h1, h2] at h
    injection h with h
    have hnn := renderedDoc_now_inj wSample _ _ "T" "S" "C" "L" "M" h
    exact absurd hnn (by decide)
  · have hw : writtenFiles
        (run wSample genEcho "20260101_000000" "2026-01-01 00:00:00").1
        = [(autogenOutputFile "20260101_000000",
            renderedDoc wSample "2026-01-01 00:00:00" (echoTheme wSample)
              (echoSpeakers wSample) (echoSchedule wSample)
              (echoLogistics wSample) (echoMarketing wSample))] := rfl
    rw [hw]
    simp

end AutogenDemo

/-- Claim C4 (amended): both demo entry points exit with code 1 exactly when
configuration validation fails; in every other case — including a
generation-call failure during the run, which the top-level handler catches
and merely prints — the process reaches the end of the script and exits 0. -/
theorem exit_codes_spec (cfg : Bool) (w : AutogenDemo.Params)
    (gen : AutogenDemo.Gen) (ts now : String) (k : Except String String) :
    AutogenDemo.autogenExitCode cfg w gen ts now = (if cfg then 0 else 1) ∧
    CrewaiDemo.crewaiExitCode cfg k = (if cfg then 0 else 1) := by
  refine ⟨?_, ?_⟩
  · cases cfg
    · rfl
    · cases hx : (AutogenDemo.run w gen ts now).2 with
      | ok v => simp [AutogenDemo.autogenExitCode, hx]
      | error e => simp [AutogenDemo.autogenExitCode, hx]
  · cases cfg
    · rfl
    · cases k with
      | ok v => rfl
      | error e => rfl

/-- Claim C4 as stated is false: with valid configuration and a generation
call that fails during the run, the autogen script's `except` block (and the
crewai `main`'s) swallows the error, so the process exits 0, not 1. -/
theorem exit_codes_counterexample :
    (AutogenDemo.run AutogenDemo.wSample AutogenDemo.genFail "20260101_000000"
      "2026-01-01 00:00:00").2 = Except.error "boom" ∧
    AutogenDemo.autogenExitCode true AutogenDemo.wSample AutogenDemo.genFail
      "20260101_000000" "2026-01-01 00:00:00" = 0 ∧
    CrewaiDemo.crewaiExitCode true (Except.error "boom") = 0 :=
  ⟨rfl, rfl, rfl⟩

/-- Claim C7 (amended): the autogen demo's filename embeds the run
timestamp, so distinct timestamps give distinct files (and equal filenames
force equal timestamps); the crewai demo's filename depends only on the
lower-cased destination — it contains no timestamp, so any two runs whose
destinations agree case-insensitively write to the same file, the later one
overwriting the earlier. -/
theorem output_files_spec :
    (∀ t1 t2 : String,
      AutogenDemo.autogenOutputFile t1 = AutogenDemo.autogenOutputFile t2 ↔
        t1 = t2) ∧
    (∀ d1 d2 : String,
      CrewaiDemo.crewaiOutputFile d1 = CrewaiDemo.crewaiOutputFile d2 ↔
        d1.toLower = d2.toLower) := by
  constructor
  · intro t1 t2
    constructor
    · intro h
      have hd := congrArg String.data h
      simp only [AutogenDemo.autogenOutputFile, String.data_append] at hd
      replace hd := List.append_cancel_right hd
      replace hd := List.append_cancel_left hd
      exact String.ext hd
    · intro h
      rw [h]
  · intro d1 d2
    constructor
    · intro h
      have hd := congrArg String.data h
      simp only [CrewaiDemo.crewaiOutputFile, String.data_append] at hd
      replace hd := List.append_cancel_right hd
      replace hd := List.append_cancel_left hd
      exact String.ext hd
    · intro h
      simp only [CrewaiDemo.crewaiOutputFile, h]

/-- Claim C7 as stated is false for the crewai demo: its filename contains
no timestamp, only the destination, so two distinct runs (same destination,
different start times) write to the very same file — the second run
overwrites the first. -/
theorem output_files_counterexample :
    ¬ (∀ d1 ts1 d2 ts2 : String, (d1, ts1) ≠ (d2, ts2) →
        CrewaiDemo.crewaiOutputFile d1 ≠ CrewaiDemo.crewaiOutputFile d2) := by
  intro hP
  exact hP "Iceland" "20260101_000000" "Iceland" "20260102_000000"
    (by decide) rfl

namespace CrewaiDemo

/-- Claim C8: each travel-demo search tool is a pure function of its string
arguments — in the embedding its whole body is the returned templated
research prompt, which contains the `Research task:` marker and every
argument verbatim; no network request occurs in the source bodies (the
computed `search_query` is never used). -/
theorem search_tools_pure_templates
    (destination departure_city location check_in_date : String) :
    containsStr (search_flight_prices destination departure_city)
      "Research task:" ∧
    containsStr (search_flight_prices destination departure_city)
      departure_city ∧
    containsStr (search_flight_prices destination departure_city)
      destination ∧
    containsStr (search_hotel_options location check_in_date)
      "Research task:" ∧
    containsStr (search_hotel_options location check_in_date) location ∧
    containsStr (search_hotel_options location check_in_date) check_in_date ∧
    containsStr (search_attractions_activities destination)
      "Research task:" ∧
    containsStr (search_attractions_activities destination) destination ∧
    containsStr (search_travel_costs destination) "Research task:" ∧
    containsStr (search_travel_costs destination) destination := by
  refine ⟨?_, ?_, ?_, ?_, ?_, ?_, ?_, ?_, ?_, ?_⟩ <;>
    simp only [search_flight_prices, search_hotel_options,
               search_attractions_activities, search_travel_costs] <;>
    repeat
      first
      | exact containsStr_append_left _ (containsStr_refl _)
      | exact ⟨"\n    ".data, " Find flights from ".data, rfl⟩
      | exact ⟨"\n    ".data, " Find hotels in ".data, rfl⟩
      | exact ⟨"\n    ".data, " Find attractions and activities in ".data, rfl⟩
      | exact ⟨"\n    ".data, " Find cost information for a trip to ".data, rfl⟩
      | apply containsStr_append_right

end CrewaiDemo

/-- Claim C9 (amended): the crewai demo's positional arguments override its
defaults field by field (destination, duration, departure city, dates,
travelers, budget preference), with the documented defaults when absent;
the autogen demo, however, reads no command-line arguments at all — its run
parameters are constants in the source file. -/
theorem cli_args_spec (argv : List String) :
    (∀ x, argv[0]? = some x →
      (CrewaiDemo.crewaiParseArgs argv).destination = x) ∧
    (∀ x, argv[1]? = some x →
      (CrewaiDemo.crewaiParseArgs argv).trip_duration = x) ∧
    (∀ x, argv[2]? = some x →
      (CrewaiDemo.crewaiParseArgs argv).departure_city = x) ∧
    (∀ x, argv[3]? = some x →
      (CrewaiDemo.crewaiParseArgs argv).trip_dates = x) ∧
    (∀ x, argv[4]? = some x →
      (CrewaiDemo.crewaiParseArgs argv).travelers = x.toInt?) ∧
    (∀ x, argv[5]? = some x →
      (CrewaiDemo.crewaiParseArgs argv).budget_preference = x) ∧
    CrewaiDemo.crewaiParseArgs []
      = ⟨"Iceland", "5 days", "January 15-20, 2026", "New York",
         some 2, "mid-range"⟩ ∧
    AutogenDemo.autogenMainParams argv
      = ("AI Horizons 2026", "AI/ML technology", "3 days") := by
  refine ⟨?_, ?_, ?_, ?_, ?_, ?_, rfl, rfl⟩ <;>
    intro x hx <;> simp [CrewaiDemo.crewaiParseArgs, hx]

/-- Claim C9, applied at a concrete argument vector. -/
theorem cli_args_spec_witness :
    (CrewaiDemo.crewaiParseArgs
      ["France", "7 days", "Los Angeles", "March 1-8, 2026", "4", "luxury"]
      ).destination = "France" ∧
    (CrewaiDemo.crewaiParseArgs
      ["France", "7 days", "Los Angeles", "March 1-8, 2026", "4", "luxury"]
      ).travelers = ("4" : String).toInt? ∧
    AutogenDemo.autogenMainParams
      ["France", "7 days", "Los Angeles", "March 1-8, 2026", "4", "luxury"]
      = ("AI Horizons 2026", "AI/ML technology", "3 days") :=
  ⟨(cli_args_spec _).1 "France" rfl,
   (cli_args_spec _).2.2.2.2.1 "4" rfl,
   (cli_args_spec _).2.2.2.2.2.2.2⟩

/-- Claim C9 as stated is false for the autogen demo: passing a positional
argument does not override the conference name — `__main__` never reads the
argument vector; the parameters are constants edited in the file. -/
theorem cli_args_counterexample :
    AutogenDemo.autogenMainParams ["My Conference"]
      = ("AI Horizons 2026", "AI/ML technology", "3 days") ∧
    ("AI Horizons 2026" : String) ≠ "My Conference" :=
  ⟨rfl, by decide⟩

/-- Claim C10: the hotel-location mapping is the fixed lower-cased table
(iceland to Reykjavik, france to Paris, japan to Tokyo, anything else
unchanged), the agent constructor and the task constructor compute the very
same mapping, and both the agent's goal and the task's description embed
that mapped location verbatim. -/
theorem hotel_location_mapping (destination trip_dates : String) :
    CrewaiDemo.create_hotel_agent_location destination
      = CrewaiDemo.create_hotel_task_location destination ∧
    CrewaiDemo.create_hotel_agent_location destination
      = (if destination.toLower = "iceland" then "Reykjavik"
         else if destination.toLower = "france" then "Paris"
         else if destination.toLower = "japan" then "Tokyo"
         else destination) ∧
    containsStr (CrewaiDemo.create_hotel_agent_goal destination trip_dates)
      (CrewaiDemo.create_hotel_agent_location destination) ∧
    containsStr
      (CrewaiDemo.create_hotel_task_description destination trip_dates)
      (CrewaiDemo.create_hotel_task_location destination) := by
  refine ⟨rfl, rfl, ?_, ?_⟩ <;>
    simp only [CrewaiDemo.create_hotel_agent_goal,
               CrewaiDemo.create_hotel_task_description] <;>
    repeat
      first
      | exact containsStr_append_left _ (containsStr_refl _)
      | apply containsStr_append_right

/-- Claim C2, applied at a concrete input. -/
theorem run_echo_outputs_witness :
    (AutogenDemo.run AutogenDemo.wSample AutogenDemo.genEcho
      "20260101_000000" "2026-01-01 00:00:00").2 =
      Except.ok
        [("theme", AutogenDemo.echoTheme AutogenDemo.wSample),
         ("speakers", AutogenDemo.echoSpeakers AutogenDemo.wSample),
         ("schedule", AutogenDemo.echoSchedule AutogenDemo.wSample),
         ("logistics", AutogenDemo.echoLogistics AutogenDemo.wSample),
         ("marketing", AutogenDemo.echoMarketing AutogenDemo.wSample)] :=
  (AutogenDemo.run_echo_outputs AutogenDemo.wSample "20260101_000000"
    "2026-01-01 00:00:00").1

/-- Claim C4, applied at concrete inputs. -/
theorem exit_codes_spec_witness :
    AutogenDemo.autogenExitCode false AutogenDemo.wSample AutogenDemo.genEcho
      "20260101_000000" "2026-01-01 00:00:00" = (if false then 0 else 1) :=
  (exit_codes_spec false AutogenDemo.wSample AutogenDemo.genEcho
    "20260101_000000" "2026-01-01 00:00:00" (Except.ok "plan")).1

/-- Claim C7, applied at concrete inputs. -/
theorem output_files_spec_witness :
    (AutogenDemo.autogenOutputFile "20260101_000000"
      = AutogenDemo.autogenOutputFile "20260102_000000" ↔
      ("20260101_000000" : String) = "20260102_000000") ∧
    (CrewaiDemo.crewaiOutputFile "Iceland"
      = CrewaiDemo.crewaiOutputFile "ICELAND" ↔
      ("Iceland" : String).toLower = ("ICELAND" : String).toLower) :=
  ⟨output_files_spec.1 "20260101_000000" "20260102_000000",
   output_files_spec.2 "Iceland" "ICELAND"⟩

/-- Claim C8, applied at concrete inputs. -/
theorem search_tools_pure_templates_witness :
    containsStr (CrewaiDemo.search_flight_prices "Iceland" "New York")
      "Iceland" ∧
    containsStr (CrewaiDemo.search_hotel_options "Reykjavik"
      "January 15, 2026") "Research task:" :=
  ⟨(CrewaiDemo.search_tools_pure_templates "Iceland" "New York" "Reykjavik"
      "January 15, 2026").2.2.1,
   (CrewaiDemo.search_tools_pure_templates "Iceland" "New York" "Reykjavik"
      "January 15, 2026").2.2.2.1⟩

/-- Claim C10, applied at concrete inputs. -/
theorem hotel_location_mapping_witness :
    CrewaiDemo.create_hotel_agent_location "Iceland"
      = CrewaiDemo.create_hotel_task_location "Iceland" ∧
    containsStr
      (CrewaiDemo.create_hotel_task_description "Iceland" "January 15-20, 2026")
      (CrewaiDemo.create_hotel_task_location "Iceland") :=
  ⟨(hotel_location_mapping "Iceland" "January 15-20, 2026").1,
   (hotel_location_mapping "Iceland" "January 15-20, 2026").2.2.2⟩
